import Mathlib

/-!
# Verification of the Omniverse point-cloud extension

Shallow embedding of `exts/company.point.cloud/company/point/cloud/extension.py`
(class `CompanyPointCloudExtension`).

Modelling choices:
* Python floats are modelled as rationals (`ℚ`); all arithmetic in the
  extension is elementary (+, *, /, comparisons, `int()` truncation).
* The USD scene is modelled as the finite set of live point-prim paths.
  A path `/World/Point_{i}_{j}_{k}` is the triple `(i, j, k)`.  The random
  world position, radius and display color of a point are irrelevant to
  prim identity and lifecycle and are not tracked.
* The host environment (USD stage, camera) is a record `Env`: whether the
  stage and the camera lookups succeed, and the camera world position.
* Python exceptions are modelled with `Except String`; since instance
  attributes mutate in place, an operation returns its (possibly partially
  mutated) state *together with* the normal/exceptional outcome.
* `camera.ComputeLocalToWorldTransform` plus `GetLength()` produce the
  Euclidean camera-to-cell distance; to stay inside `ℚ` the embedding
  branches on the *squared* distance against the squared thresholds, which
  is equivalent for nonnegative distances (see `claim4_amended`).
-/

namespace PointCloud

deriving instance DecidableEq for Except

/-- Python `int()` on a real number: truncation toward zero
(`int(q) = ⌊q⌋` for `q ≥ 0`, and `-⌊-q⌋` otherwise). -/
def pyInt (q : ℚ) : ℤ := if 0 ≤ q then ⌊q⌋ else -⌊-q⌋

/-! ## Grid parameters (extension.py lines 70-74) -/

def world_size_x : ℚ := 1500
def world_size_z : ℚ := 1500
def cell_size : ℚ := 10

/-- Line 77: `i = int((x + half_world_x) / cell_size) - int(world_size_x / (2 * cell_size))`. -/
def cellIndexI (x : ℚ) : ℤ :=
  pyInt ((x + world_size_x / 2) / cell_size) - pyInt (world_size_x / (2 * cell_size))

/-- Line 78: the same mapping for the z coordinate. -/
def cellIndexJ (z : ℚ) : ℤ :=
  pyInt ((z + world_size_z / 2) / cell_size) - pyInt (world_size_z / (2 * cell_size))

/-- Modelled from the spec's wording for the claim comparison: the cell
index written with a mathematical `floor` instead of Python `int()`
truncation (spec: `i = floor((x + half_extent) / cell_size) - offset`). -/
def cellIndexSpecI (x : ℚ) : ℤ :=
  ⌊(x + world_size_x / 2) / cell_size⌋ - ⌊world_size_x / (2 * cell_size)⌋

/-- Floor-based counterpart of `cellIndexJ`, from the spec's wording. -/
def cellIndexSpecJ (z : ℚ) : ℤ :=
  ⌊(z + world_size_z / 2) / cell_size⌋ - ⌊world_size_z / (2 * cell_size)⌋

/-- Identity of a point prim: the path `/World/Point_{i}_{j}_{k}` (line 128). -/
abbrev PointPath := ℤ × ℤ × ℕ

/-- The point prims of cell `(i, j)` with point index `0 ≤ k < n`. -/
def pointsOf (i j : ℤ) (n : ℕ) : Finset PointPath :=
  (Finset.range n).image (fun k => (i, j, k))

/-- Host-side context: whether `omni.usd.get_context().get_stage()` returns
a stage, whether the camera lookup at `/OmniverseKit_Persp` succeeds, and
the camera world position. -/
structure Env where
  stageOk : Bool
  cameraOk : Bool
  camPos : ℚ × ℚ × ℚ

/-- The extension's session state (instance attributes set in `on_startup`)
together with the scene contents. -/
structure ExtState where
  first_poll : Bool
  current_file_index : ℕ
  last_x : ℤ
  last_z : ℤ
  last_num_points : ℕ
  scene : Finset PointPath
deriving DecidableEq

/-- The state produced by `on_startup` (lines 21-25), with an empty scene. -/
def startupState : ExtState :=
  { first_poll := false, current_file_index := 0, last_x := 0, last_z := 0,
    last_num_points := 0, scene := ∅ }

/-- Squared Euclidean distance between two 3D points (line 101 computes
`(cam_position - cell_center).GetLength()`; the embedding keeps the square). -/
def distSq (p q : ℚ × ℚ × ℚ) : ℚ :=
  (p.1 - q.1) ^ 2 + (p.2.1 - q.2.1) ^ 2 + (p.2.2 - q.2.2) ^ 2

/-- Lines 104-109: LOD factor from the camera distance, expressed on the
squared distance (`d < 200 ↔ d² < 200²` for `d ≥ 0`). -/
def lodFactorOfDistSq (d2 : ℚ) : ℚ :=
  if d2 < 200 ^ 2 then 1
  else if d2 < 500 ^ 2 then 1 / 2
  else 1 / 10

/-- Modelled from the claim's wording: LOD thresholds `<100 → 1.0`,
`<300 → 0.5`, `else → 0.1`, on the plain distance. -/
def lodFactorClaim300 (d : ℚ) : ℚ :=
  if d < 100 then 1 else if d < 300 then 1 / 2 else 1 / 10

/-- Modelled from the claim's wording, larger-grid variant: `<100 → 1.0`,
`<500 → 0.5`, `else → 0.1`. -/
def lodFactorClaim500 (d : ℚ) : ℚ :=
  if d < 100 then 1 else if d < 500 then 1 / 2 else 1 / 10

/-- Lines 112-113: `num_points = max(1, int(gas_concentration * 1000 * lod_factor))`. -/
def num_points_for (conc lod : ℚ) : ℤ :=
  max 1 (pyInt (conc * 1000 * lod))

/-- Lines 159-180, `remove_points`: needs a stage, then deletes the prims
`/World/Point_{x}_{z}_{k}` for `k < num_points` that exist. -/
def remove_points (env : Env) (scene : Finset PointPath) (x z : ℤ) (num_points : ℕ) :
    Except String (Finset PointPath) :=
  if env.stageOk then .ok (scene \ pointsOf x z num_points)
  else .error "Failed to get the current USD stage."

/-- Lines 58-155, `add_point_cloud_in_grid`.  Returns the mutated state and
either `ok (i, j)` or the raised error.  Mutations made before a raise
(`_first_poll = 1`, the removal) persist in the returned state, as Python
instance attributes do.  The `i is None` check of lines 81-82 can never
fire (`int()` always returns a value) and is omitted. -/
def add_point_cloud_in_grid (env : Env) (st : ExtState) (x z conc : ℚ) :
    ExtState × Except String (ℤ × ℤ) :=
  match (if st.first_poll then
           remove_points env st.scene st.last_x st.last_z st.last_num_points
         else .ok st.scene) with
  | .error e => (st, .error e)
  | .ok scene1 =>
    let st1 : ExtState := { st with scene := scene1, first_poll := true }
    let i := cellIndexI x
    let j := cellIndexJ z
    if !env.stageOk then (st1, .error "Failed to get the current USD stage.")
    else if !env.cameraOk then (st1, .error "Camera not found in USD stage.")
    else
      let lod := lodFactorOfDistSq (distSq env.camPos (x, 0, z))
      let n := (num_points_for conc lod).toNat
      ({ st1 with scene := st1.scene ∪ pointsOf i j n,
                  last_x := i, last_z := j, last_num_points := n },
       .ok (i, j))

/-- Lines 199-206: the nested `for x in range(150): for z in range(150):`
loop over a list of `(x, z)` pairs, skipping zero concentrations; an
exception from `add_point_cloud_in_grid` aborts the loop and propagates. -/
def renderLoop (env : Env) (grid : ℕ → ℕ → ℚ) :
    List (ℕ × ℕ) → ExtState → ExtState × Except String Unit
  | [], st => (st, .ok ())
  | (x, z) :: rest, st =>
    if grid x z = 0 then renderLoop env grid rest st
    else
      match add_point_cloud_in_grid env st (x : ℚ) (z : ℚ) (grid x z) with
      | (st', .ok _) => renderLoop env grid rest st'
      | (st', .error e) => (st', .error e)

/-- The traversal order of the nested loop: all `(x, z)` with
`x, z < 150`, row-major. -/
def cellList : List (ℕ × ℕ) :=
  (List.range 150).flatMap (fun x => (List.range 150).map (fun z => (x, z)))

/-- Lines 187-209, the body of the `try:` block of `load_netcdf_point_cloud`.
`file = none` models `nc.Dataset` (or the variable extraction) raising;
`some grid` is the successfully read 150×150 `concentrations` array.  On
success the file index advances (line 209). -/
def load_netcdf_body (env : Env) (file : Option (ℕ → ℕ → ℚ)) (st : ExtState) :
    ExtState × Except String Unit :=
  match file with
  | none => (st, .error "Failed to load .nc file")
  | some grid =>
    match renderLoop env grid cellList st with
    | (st', .ok _) =>
      ({ st' with current_file_index := (st'.current_file_index + 1) % 12 }, .ok ())
    | (st', .error e) => (st', .error e)

/-- Lines 182-212, `load_netcdf_point_cloud`: the `except Exception` clause
catches every exception from the body and only logs it, so the call always
returns normally with whatever state the body reached. -/
def load_netcdf_point_cloud (env : Env) (file : Option (ℕ → ℕ → ℚ)) (st : ExtState) :
    ExtState :=
  (load_netcdf_body env file st).1

/-- Line 209 in isolation: `(current + 1) % 12`. -/
def nextFileIndex (n : ℕ) : ℕ := (n + 1) % 12

/-- Reachability invariant of the session state: before the first render
(`_first_poll == 0`) the scene is empty, and afterwards every live prim
belongs to the tracked cell `(_last_x, _last_z)` with point index below
`_last_num_points`. -/
def Inv (st : ExtState) : Prop :=
  (st.first_poll = false → st.scene = ∅) ∧
  st.scene ⊆ pointsOf st.last_x st.last_z st.last_num_points

/-! ## Concrete scenario data used by witnesses and counterexamples -/

/-- A healthy host: stage and camera both present, camera at the origin. -/
def envOk : Env := { stageOk := true, cameraOk := true, camPos := (0, 0, 0) }

/-- A host with no active USD stage. -/
def envNoStage : Env := { stageOk := false, cameraOk := false, camPos := (0, 0, 0) }

/-- A host with a stage but no camera at `/OmniverseKit_Persp`. -/
def envNoCamera : Env := { stageOk := true, cameraOk := false, camPos := (0, 0, 0) }

/-- The all-zero concentration grid. -/
def zeroGrid : ℕ → ℕ → ℚ := fun _ _ => 0

/-- A grid with concentration 1 everywhere. -/
def oneGrid : ℕ → ℕ → ℚ := fun _ _ => 1

/-- A grid whose only nonzero cells are `(0, 0)` and `(0, 10)`, each with a
tiny concentration so that exactly one point is created per cell. -/
def twoCellGrid : ℕ → ℕ → ℚ := fun x z =>
  if x = 0 ∧ (z = 0 ∨ z = 10) then 1 / 1000000 else 0

/-- The session state after a completed pass over `twoCellGrid` from
`startupState` under `envOk`, before the file-index increment. -/
def afterTwoCellPass : ExtState :=
  { first_poll := true, current_file_index := 0, last_x := 0, last_z := 1,
    last_num_points := 1, scene := pointsOf 0 1 1 }

/-- The session state after one `add_point_cloud_in_grid envOk startupState 0 0 0`. -/
def afterSingleAdd : ExtState :=
  { first_poll := true, current_file_index := 0, last_x := 0, last_z := 0,
    last_num_points := 1, scene := pointsOf 0 0 1 }

/-- `startupState` after its `_first_poll` flag has been raised. -/
def polledStartup : ExtState := { startupState with first_poll := true }

end PointCloud

/-! ## Basic lemmas -/

namespace PointCloud

lemma pyInt_of_nonneg {q : ℚ} (h : 0 ≤ q) : pyInt q = ⌊q⌋ := if_pos h

lemma max_one_pyInt (q : ℚ) : max 1 (pyInt q) = max 1 ⌊q⌋ := by
  by_cases h : 0 ≤ q
  · rw [pyInt_of_nonneg h]
  · push_neg at h
    have h1 : 0 ≤ ⌊-q⌋ := Int.floor_nonneg.2 (by linarith)
    have h2 : ⌊q⌋ ≤ 0 := Int.floor_nonpos h.le
    rw [pyInt, if_neg (not_le.2 h)]
    omega

lemma one_le_num_points (conc lod : ℚ) : 1 ≤ num_points_for conc lod :=
  le_max_left _ _

lemma mem_pointsOf {i j a b : ℤ} {k n : ℕ} :
    ((a, b, k) : PointPath) ∈ pointsOf i j n ↔ a = i ∧ b = j ∧ k < n := by
  simp only [pointsOf, Finset.mem_image, Finset.mem_range, Prod.mk.injEq]
  constructor
  · rintro ⟨m, hm, hi, hj, hk⟩
    exact ⟨hi.symm, hj.symm, hk ▸ hm⟩
  · rintro ⟨hi, hj, hk⟩
    exact ⟨k, hk, hi.symm, hj.symm, rfl⟩

end PointCloud

namespace PointCloud

/-- C4, counterexample: at Euclidean camera-to-cell distance 150 m the code
(lines 104-109) selects LOD factor 1.0 (since 150 < 200), while the claim's
selection (`<100 → 1.0`, `<300` or `<500 → 0.5`) yields 0.5 in both
variants. -/
theorem claim4_counterexample :
    lodFactorOfDistSq (150 ^ 2) = 1 ∧
    lodFactorClaim300 150 = 1 / 2 ∧
    lodFactorClaim500 150 = 1 / 2 ∧
    lodFactorOfDistSq (150 ^ 2) ≠ lodFactorClaim300 150 ∧
    lodFactorOfDistSq (150 ^ 2) ≠ lodFactorClaim500 150 := by
  refine ⟨?_, ?_, ?_, ?_, ?_⟩ <;> with_unfolding_all decide

/-- C4, amended: for every cell rendered by `add_point_cloud_in_grid`, the
LOD multiplier is selected from the camera-to-cell Euclidean distance `d`
as: `d < 200` m gives factor 1.0, `d < 500` m gives factor 0.5, and any
larger distance gives factor 0.1.  (The code branches on the squared
distance in this embedding; for `0 ≤ d` that is equivalent.) -/
theorem claim4_amended (d : ℚ) (h : 0 ≤ d) :
    lodFactorOfDistSq (d ^ 2) =
      if d < 200 then 1 else if d < 500 then 1 / 2 else 1 / 10 := by
  unfold lodFactorOfDistSq
  by_cases h1 : d < 200
  · rw [if_pos (by nlinarith), if_pos h1]
  · push_neg at h1
    rw [if_neg (by nlinarith), if_neg (not_lt.2 h1)]
    by_cases h2 : d < 500
    · rw [if_pos (by nlinarith), if_pos h2]
    · push_neg at h2
      rw [if_neg (by nlinarith), if_neg (not_lt.2 h2)]

/-- Witness for `claim4_amended` at the concrete distance 300 m. -/
theorem claim4_witness :
    (0 : ℚ) ≤ 300 ∧
    lodFactorOfDistSq (300 ^ 2) =
      if (300 : ℚ) < 200 then 1 else if (300 : ℚ) < 500 then 1 / 2 else 1 / 10 :=
  ⟨by norm_num, claim4_amended 300 (by norm_num)⟩

/-- C5, counterexample: the code maps world coordinates with Python `int()`
(truncation toward zero), not `floor`.  At `x = -755` the code (line 77)
yields cell index `int((-755+750)/10) - 75 = 0 - 75 = -75`, while the
claim's floor formula yields `⌊-0.5⌋ - 75 = -76`. -/
theorem claim5_counterexample :
    cellIndexI (-755) = -75 ∧ cellIndexSpecI (-755) = -76 ∧
    cellIndexI (-755) ≠ cellIndexSpecI (-755) := by
  refine ⟨?_, ?_, ?_⟩ <;> with_unfolding_all decide

/-- C5, amended: the grid-to-cell mapping is a pure function of its input
(it is deterministic by construction), it agrees with the claim's floor
formula `i = ⌊(x + half_extent)/cell_size⌋ - ⌊world_size/(2·cell_size)⌋`
for every world coordinate `x ≥ -half_extent` (inside this range Python
`int()` truncation coincides with `floor`; outside it they differ), and
`(x, z) = (0, 0)` maps to cell `(0, 0)`. -/
theorem claim5_amended :
    (∀ x : ℚ, -(world_size_x / 2) ≤ x → cellIndexI x = cellIndexSpecI x) ∧
    (∀ z : ℚ, -(world_size_z / 2) ≤ z → cellIndexJ z = cellIndexSpecJ z) ∧
    cellIndexI 0 = 0 ∧ cellIndexJ 0 = 0 := by
  have hx : ∀ x : ℚ, -(world_size_x / 2) ≤ x → cellIndexI x = cellIndexSpecI x := by
    intro x hxge
    unfold cellIndexI cellIndexSpecI
    rw [pyInt_of_nonneg, pyInt_of_nonneg]
    · rw [world_size_x, cell_size]; norm_num
    · apply div_nonneg (by linarith) (by rw [cell_size]; norm_num)
  refine ⟨hx, ?_, ?_, ?_⟩
  · intro z hzge
    unfold cellIndexJ cellIndexSpecJ
    rw [pyInt_of_nonneg, pyInt_of_nonneg]
    · rw [world_size_z, cell_size]; norm_num
    · apply div_nonneg (by linarith) (by rw [cell_size]; norm_num)
  · with_unfolding_all decide
  · with_unfolding_all decide

/-- Witness for `claim5_amended` at `x = 5`. -/
theorem claim5_witness :
    (-(world_size_x / 2) ≤ (5 : ℚ) ∧ cellIndexI 5 = cellIndexSpecI 5) ∧
    (-(world_size_z / 2) ≤ (7 : ℚ) ∧ cellIndexJ 7 = cellIndexSpecJ 7) :=
  ⟨⟨by rw [world_size_x]; norm_num, claim5_amended.1 5 (by rw [world_size_x]; norm_num)⟩,
   ⟨by rw [world_size_z]; norm_num, claim5_amended.2.1 7 (by rw [world_size_z]; norm_num)⟩⟩

/-- C6: the per-cell point count equals `max(1, ⌊conc * 1000 * lod⌋)` (the
Python `int()` truncation agrees with `floor` under the outer `max 1`), it
is monotone non-decreasing in the concentration for every fixed
nonnegative LOD factor, and it is at least 1 — in particular whenever the
concentration is positive. -/
theorem claim6_point_count :
    (∀ conc lod : ℚ, num_points_for conc lod = max 1 ⌊conc * 1000 * lod⌋) ∧
    (∀ lod c₁ c₂ : ℚ, 0 ≤ lod → c₁ ≤ c₂ →
      num_points_for c₁ lod ≤ num_points_for c₂ lod) ∧
    (∀ conc lod : ℚ, 0 < conc → 1 ≤ num_points_for conc lod) := by
  refine ⟨fun conc lod => max_one_pyInt _, ?_, fun conc lod _ => one_le_num_points _ _⟩
  intro lod c₁ c₂ hlod hc
  rw [num_points_for, num_points_for, max_one_pyInt, max_one_pyInt]
  have hmul : c₁ * 1000 * lod ≤ c₂ * 1000 * lod := by nlinarith
  exact max_le_max le_rfl (Int.floor_le_floor hmul)

/-- Witness for `claim6_point_count` at concrete inputs: the formula at
`conc = 2, lod = 1`, monotonicity at `1 ≤ 2` with `lod = 1/2`, and
positivity at `conc = 1/1000, lod = 1/10`. -/
theorem claim6_witness :
    num_points_for 2 1 = max 1 ⌊(2 : ℚ) * 1000 * 1⌋ ∧
    num_points_for 1 (1 / 2) ≤ num_points_for 2 (1 / 2) ∧
    1 ≤ num_points_for (1 / 1000) (1 / 10) :=
  ⟨claim6_point_count.1 2 1,
   claim6_point_count.2.1 (1 / 2) 1 2 (by norm_num) (by norm_num),
   claim6_point_count.2.2 (1 / 1000) (1 / 10) (by norm_num)⟩

end PointCloud

namespace PointCloud

lemma add_file_index (env : Env) (st : ExtState) (x z conc : ℚ) :
    (add_point_cloud_in_grid env st x z conc).1.current_file_index =
      st.current_file_index := by
  unfold add_point_cloud_in_grid remove_points
  cases hfp : st.first_poll <;> cases hs : env.stageOk <;> cases hc : env.cameraOk <;> simp

lemma add_inv (env : Env) (st : ExtState) (x z conc : ℚ) (h : Inv st) :
    Inv (add_point_cloud_in_grid env st x z conc).1 := by
  obtain ⟨h1, h2⟩ := h
  unfold Inv add_point_cloud_in_grid remove_points
  cases hfp : st.first_poll with
  | false =>
    have hsc : st.scene = ∅ := h1 hfp
    cases hs : env.stageOk with
    | false => exact ⟨fun hff => Bool.noConfusion hff, h2⟩
    | true =>
      cases hc : env.cameraOk with
      | false => exact ⟨fun hff => Bool.noConfusion hff, h2⟩
      | true =>
        refine ⟨fun hff => Bool.noConfusion hff, ?_⟩
        show st.scene ∪ pointsOf (cellIndexI x) (cellIndexJ z)
            ((num_points_for conc (lodFactorOfDistSq (distSq env.camPos (x, 0, z)))).toNat) ⊆
          pointsOf (cellIndexI x) (cellIndexJ z)
            ((num_points_for conc (lodFactorOfDistSq (distSq env.camPos (x, 0, z)))).toNat)
        rw [hsc]
        simp
  | true =>
    cases hs : env.stageOk with
    | false => exact ⟨h1, h2⟩
    | true =>
      cases hc : env.cameraOk with
      | false =>
        refine ⟨fun hff => Bool.noConfusion hff, ?_⟩
        show st.scene \ pointsOf st.last_x st.last_z st.last_num_points ⊆
          pointsOf st.last_x st.last_z st.last_num_points
        exact Finset.sdiff_subset.trans h2
      | true =>
        refine ⟨fun hff => Bool.noConfusion hff, ?_⟩
        show (st.scene \ pointsOf st.last_x st.last_z st.last_num_points) ∪
            pointsOf (cellIndexI x) (cellIndexJ z)
              ((num_points_for conc (lodFactorOfDistSq (distSq env.camPos (x, 0, z)))).toNat) ⊆
          pointsOf (cellIndexI x) (cellIndexJ z)
            ((num_points_for conc (lodFactorOfDistSq (distSq env.camPos (x, 0, z)))).toNat)
        rw [Finset.sdiff_eq_empty_iff_subset.mpr h2]
        simp

end PointCloud

namespace PointCloud

lemma renderLoop_file_index (env : Env) (grid : ℕ → ℕ → ℚ) :
    ∀ (l : List (ℕ × ℕ)) (st : ExtState),
      (renderLoop env grid l st).1.current_file_index = st.current_file_index := by
  intro l
  induction l with
  | nil => intro st; rfl
  | cons p rest ih =>
    intro st
    obtain ⟨x, z⟩ := p
    by_cases hz : grid x z = 0
    · simp only [renderLoop, if_pos hz]
      exact ih st
    · simp only [renderLoop, if_neg hz]
      rcases hadd : add_point_cloud_in_grid env st (x : ℚ) (z : ℚ) (grid x z) with ⟨st', r⟩
      have hidx : st'.current_file_index = st.current_file_index := by
        have := add_file_index env st (x : ℚ) (z : ℚ) (grid x z)
        rw [hadd] at this
        exact this
      cases r with
      | ok v => simp only [hadd]; rw [ih st', hidx]
      | error e => simp only [hadd]; exact hidx

lemma renderLoop_inv (env : Env) (grid : ℕ → ℕ → ℚ) :
    ∀ (l : List (ℕ × ℕ)) (st : ExtState), Inv st → Inv (renderLoop env grid l st).1 := by
  intro l
  induction l with
  | nil => intro st h; exact h
  | cons p rest ih =>
    intro st h
    obtain ⟨x, z⟩ := p
    by_cases hz : grid x z = 0
    · simp only [renderLoop, if_pos hz]
      exact ih st h
    · simp only [renderLoop, if_neg hz]
      rcases hadd : add_point_cloud_in_grid env st (x : ℚ) (z : ℚ) (grid x z) with ⟨st', r⟩
      have hinv : Inv st' := by
        have := add_inv env st (x : ℚ) (z : ℚ) (grid x z) h
        rw [hadd] at this
        exact this
      cases r with
      | ok v => exact ih st' hinv
      | error e => exact hinv

lemma renderLoop_filter (env : Env) (grid : ℕ → ℕ → ℚ) :
    ∀ (l : List (ℕ × ℕ)) (st : ExtState),
      renderLoop env grid l st =
        renderLoop env grid (l.filter fun p => !decide (grid p.1 p.2 = 0)) st := by
  intro l
  induction l with
  | nil => intro st; rfl
  | cons p rest ih =>
    intro st
    obtain ⟨x, z⟩ := p
    by_cases hz : grid x z = 0
    · rw [List.filter_cons_of_neg (by simp [hz])]
      simp only [renderLoop, if_pos hz]
      exact ih st
    · rw [List.filter_cons_of_pos (by simp [hz])]
      simp only [renderLoop, if_neg hz]
      rcases hadd : add_point_cloud_in_grid env st (x : ℚ) (z : ℚ) (grid x z) with ⟨st', r⟩
      cases r with
      | ok v => exact ih st'
      | error e => rfl

lemma renderLoop_zeros (env : Env) (grid : ℕ → ℕ → ℚ) :
    ∀ (l : List (ℕ × ℕ)), (∀ p ∈ l, grid p.1 p.2 = 0) → ∀ st : ExtState,
      renderLoop env grid l st = (st, .ok ()) := by
  intro l
  induction l with
  | nil => intro _ st; rfl
  | cons p rest ih =>
    intro hl st
    obtain ⟨x, z⟩ := p
    have hz : grid x z = 0 := hl (x, z) (List.mem_cons_self _ _)
    simp only [renderLoop, if_pos hz]
    exact ih (fun q hq => hl q (List.mem_cons_of_mem _ hq)) st

lemma load_inv (env : Env) (file : Option (ℕ → ℕ → ℚ)) (st : ExtState) (h : Inv st) :
    Inv (load_netcdf_point_cloud env file st) := by
  cases file with
  | none => exact h
  | some grid =>
    rcases hr : renderLoop env grid cellList st with ⟨st', r⟩
    have hinv : Inv st' := by
      have := renderLoop_inv env grid cellList st h
      rw [hr] at this
      exact this
    show Inv (match renderLoop env grid cellList st with
      | (st', Except.ok _) =>
        ({ st' with current_file_index := (st'.current_file_index + 1) % 12 }, Except.ok ())
      | (st', Except.error e) => (st', Except.error e)).1
    rw [hr]
    cases r with
    | ok v => cases v; exact ⟨hinv.1, hinv.2⟩
    | error e => exact hinv

end PointCloud

namespace PointCloud

/-- C2: whenever `remove_points` returns normally, no prim of the targeted
cell with point index below the passed count remains; and if the scene held
nothing but prims of that cell within that count — which the reachability
invariant `Inv` guarantees for the tracked cell at every call site — the
scene is left completely empty, so zero primitives remain under any
previously active cell path. -/
theorem claim2_remove_all_tracked :
    ∀ (env : Env) (scene : Finset PointPath) (x z : ℤ) (n : ℕ)
      (scene' : Finset PointPath),
      remove_points env scene x z n = Except.ok scene' →
      (∀ k : ℕ, k < n → ((x, z, k) : PointPath) ∉ scene') ∧
      (scene ⊆ pointsOf x z n → scene' = ∅) := by
  intro env scene x z n scene' h
  unfold remove_points at h
  cases hs : env.stageOk with
  | false => rw [hs] at h; simp at h
  | true =>
    rw [hs] at h
    simp only [if_pos] at h
    have hsc : scene' = scene \ pointsOf x z n := by
      cases h
      rfl
    subst hsc
    constructor
    · intro k hk hmem
      exact (Finset.mem_sdiff.1 hmem).2 (mem_pointsOf.2 ⟨rfl, rfl, hk⟩)
    · intro hsub
      exact Finset.sdiff_eq_empty_iff_subset.2 hsub

/-- Witness for `claim2_remove_all_tracked`: removing the tracked cell
`(2, 3)` with its exact point count 2 from a scene holding exactly those
two prims leaves the scene empty. -/
theorem claim2_witness :
    ((2, 3, 0) : PointPath) ∉ (∅ : Finset PointPath) ∧
    (∅ : Finset PointPath) = ∅ :=
  have h : remove_points envOk (pointsOf 2 3 2) 2 3 2 = Except.ok (∅ : Finset PointPath) := by
    with_unfolding_all decide
  have hc := claim2_remove_all_tracked envOk (pointsOf 2 3 2) 2 3 2 ∅ h
  ⟨hc.1 0 (by norm_num), hc.2 (fun p hp => hp)⟩

/-- C3: `load_netcdf_point_cloud` catches every exception raised inside its
`try` block, so the call never propagates an exception to its caller:
a failed file open/read leaves the state untouched (pass abandoned), and
any exceptional body outcome still returns normally with the reached state.
A missing USD stage or missing camera makes `add_point_cloud_in_grid`
itself raise (return an error), aborting that invocation. -/
theorem claim3_error_handling :
    (∀ (env : Env) (st : ExtState), load_netcdf_point_cloud env none st = st) ∧
    (∀ (env : Env) (file : Option (ℕ → ℕ → ℚ)) (st st' : ExtState) (e : String),
      load_netcdf_body env file st = (st', .error e) →
        load_netcdf_point_cloud env file st = st') ∧
    (∀ (env : Env) (st : ExtState) (x z conc : ℚ), env.stageOk = false →
      (add_point_cloud_in_grid env st x z conc).2 =
        .error "Failed to get the current USD stage.") ∧
    (∀ (env : Env) (st : ExtState) (x z conc : ℚ),
      env.stageOk = true → env.cameraOk = false →
      (add_point_cloud_in_grid env st x z conc).2 =
        .error "Camera not found in USD stage.") := by
  refine ⟨fun env st => rfl, ?_, ?_, ?_⟩
  · intro env file st st' e h
    unfold load_netcdf_point_cloud
    rw [h]
  · intro env st x z conc hs
    unfold add_point_cloud_in_grid remove_points
    cases hfp : st.first_poll <;> simp [hs]
  · intro env st x z conc hs hc
    unfold add_point_cloud_in_grid remove_points
    cases hfp : st.first_poll <;> simp [hs, hc]

/-- Witness for `claim3_error_handling` at concrete inputs. -/
theorem claim3_witness :
    load_netcdf_point_cloud envNoStage none startupState = startupState ∧
    load_netcdf_point_cloud envOk none startupState = startupState ∧
    (add_point_cloud_in_grid envNoStage startupState 0 0 1).2 =
      Except.error "Failed to get the current USD stage." ∧
    (add_point_cloud_in_grid envNoCamera startupState 0 0 1).2 =
      Except.error "Camera not found in USD stage." :=
  ⟨claim3_error_handling.1 envNoStage startupState,
   claim3_error_handling.2.1 envOk none startupState startupState
     "Failed to load .nc file" rfl,
   claim3_error_handling.2.2.1 envNoStage startupState 0 0 1 rfl,
   claim3_error_handling.2.2.2 envNoCamera startupState 0 0 1 rfl rfl⟩

/-- C7: a completed load advances the file index to
`(current + 1) % 12`; `nextFileIndex` always lands in `0..11`; and twelve
successive advances return every starting index below 12 to itself. -/
theorem claim7_file_index_cycling :
    (∀ (env : Env) (grid : ℕ → ℕ → ℚ) (st st' : ExtState),
      renderLoop env grid cellList st = (st', Except.ok ()) →
        (load_netcdf_point_cloud env (some grid) st).current_file_index =
          nextFileIndex st.current_file_index) ∧
    (∀ n : ℕ, nextFileIndex n < 12) ∧
    (∀ n : ℕ, n < 12 → nextFileIndex^[12] n = n) := by
  refine ⟨?_, fun n => Nat.mod_lt _ (by norm_num), ?_⟩
  · intro env grid st st' h
    have hidx := renderLoop_file_index env grid cellList st
    rw [h] at hidx
    show (match renderLoop env grid cellList st with
      | (st', Except.ok _) =>
        ({ st' with current_file_index := (st'.current_file_index + 1) % 12 },
         Except.ok ())
      | (st', Except.error e) => (st', Except.error e)).1.current_file_index =
      nextFileIndex st.current_file_index
    rw [h]
    show (st'.current_file_index + 1) % 12 = nextFileIndex st.current_file_index
    rw [nextFileIndex, hidx]
  · decide

/-- Witness for `claim7_file_index_cycling`: a pass over the all-zero grid
completes and advances the index from 0 to 1; cycling checked at 11 and 0. -/
theorem claim7_witness :
    (load_netcdf_point_cloud envOk (some zeroGrid) startupState).current_file_index =
      nextFileIndex startupState.current_file_index ∧
    nextFileIndex 11 < 12 ∧
    nextFileIndex^[12] 0 = 0 :=
  ⟨claim7_file_index_cycling.1 envOk zeroGrid startupState startupState
     (renderLoop_zeros envOk zeroGrid cellList (fun _ _ => rfl) startupState),
   claim7_file_index_cycling.2.1 11,
   claim7_file_index_cycling.2.2 0 (by norm_num)⟩

/-- C8: a cell whose concentration is 0 is skipped (no point is created for
it), and a pass over an all-zero grid leaves the state unchanged except for
the advanced file index — zero points created, completed without error. -/
theorem claim8_zero_cells_skipped :
    (∀ (env : Env) (grid : ℕ → ℕ → ℚ) (st : ExtState) (x z : ℕ)
      (rest : List (ℕ × ℕ)), grid x z = 0 →
        renderLoop env grid ((x, z) :: rest) st = renderLoop env grid rest st) ∧
    (∀ (env : Env) (grid : ℕ → ℕ → ℚ) (st : ExtState), (∀ x z, grid x z = 0) →
      load_netcdf_point_cloud env (some grid) st =
        { st with current_file_index := nextFileIndex st.current_file_index }) := by
  constructor
  · intro env grid st x z rest h
    simp only [renderLoop, if_pos h]
  · intro env grid st h
    have hz := renderLoop_zeros env grid cellList (fun p _ => h p.1 p.2) st
    show (match renderLoop env grid cellList st with
      | (st', Except.ok _) =>
        ({ st' with current_file_index := (st'.current_file_index + 1) % 12 },
         Except.ok ())
      | (st', Except.error e) => (st', Except.error e)).1 =
      { st with current_file_index := nextFileIndex st.current_file_index }
    rw [hz]
    rfl

/-- Witness for `claim8_zero_cells_skipped` at concrete inputs. -/
theorem claim8_witness :
    renderLoop envOk zeroGrid [(3, 4)] startupState =
      renderLoop envOk zeroGrid [] startupState ∧
    load_netcdf_point_cloud envOk (some zeroGrid) startupState =
      { startupState with
          current_file_index := nextFileIndex startupState.current_file_index } :=
  ⟨claim8_zero_cells_skipped.1 envOk zeroGrid startupState 3 4 [] rfl,
   claim8_zero_cells_skipped.2 envOk zeroGrid startupState (fun _ _ => rfl)⟩

/-- C9: a load that fails — at file open/read, or on any exception thrown
out of the render loop — leaves `_current_file_index` unchanged; the index
is incremented only after the whole loop completed. -/
theorem claim9_index_unchanged_on_failure :
    (∀ (env : Env) (st : ExtState),
      (load_netcdf_point_cloud env none st).current_file_index =
        st.current_file_index) ∧
    (∀ (env : Env) (grid : ℕ → ℕ → ℚ) (st st' : ExtState) (e : String),
      renderLoop env grid cellList st = (st', Except.error e) →
        (load_netcdf_point_cloud env (some grid) st).current_file_index =
          st.current_file_index) := by
  refine ⟨fun env st => rfl, ?_⟩
  intro env grid st st' e h
  have hidx := renderLoop_file_index env grid cellList st
  rw [h] at hidx
  show (match renderLoop env grid cellList st with
    | (st', Except.ok _) =>
      ({ st' with current_file_index := (st'.current_file_index + 1) % 12 },
       Except.ok ())
    | (st', Except.error e) => (st', Except.error e)).1.current_file_index =
    st.current_file_index
  rw [h]
  exact hidx

/-- Witness for `claim9_index_unchanged_on_failure`: a failed file read and
a render loop aborted by a missing stage both leave the index at 0. -/
theorem claim9_witness :
    (load_netcdf_point_cloud envOk none polledStartup).current_file_index =
      polledStartup.current_file_index ∧
    (load_netcdf_point_cloud envNoStage (some oneGrid) polledStartup).current_file_index =
      polledStartup.current_file_index :=
  have h : renderLoop envNoStage oneGrid cellList polledStartup =
      (polledStartup, Except.error "Failed to get the current USD stage.") := by
    with_unfolding_all decide
  ⟨claim9_index_unchanged_on_failure.1 envOk polledStartup,
   claim9_index_unchanged_on_failure.2 envNoStage oneGrid polledStartup polledStartup
     "Failed to get the current USD stage." h⟩

end PointCloud

namespace PointCloud

/-- C10: every completed `add_point_cloud_in_grid` call creates at least
one point prim — even for zero or negative concentration, since
`max(1, int(conc * 1000 * lod))` is never below 1 — and records exactly the
rendered cell and its point count in `(_last_x, _last_z, _last_num_points)`. -/
theorem claim10_add_always_creates (env : Env) (st : ExtState) (x z conc : ℚ)
    (st' : ExtState) (i j : ℤ)
    (h : add_point_cloud_in_grid env st x z conc = (st', Except.ok (i, j))) :
    i = cellIndexI x ∧ j = cellIndexJ z ∧
    st'.last_x = i ∧ st'.last_z = j ∧
    st'.last_num_points =
      (num_points_for conc (lodFactorOfDistSq (distSq env.camPos (x, 0, z)))).toNat ∧
    1 ≤ st'.last_num_points ∧
    ((i, j, 0) : PointPath) ∈ st'.scene := by
  unfold add_point_cloud_in_grid remove_points at h
  have hn1 : 1 ≤ num_points_for conc (lodFactorOfDistSq (distSq env.camPos (x, 0, z))) :=
    one_le_num_points _ _
  cases hfp : st.first_poll <;> rw [hfp] at h <;>
    cases hs : env.stageOk <;> rw [hs] at h <;>
    cases hc : env.cameraOk <;> rw [hc] at h <;>
    simp only [Bool.false_eq_true, Bool.true_eq_false, if_true, if_false,
      Bool.not_false, Bool.not_true, if_pos, if_neg, Prod.mk.injEq,
      reduceCtorEq, and_false, false_and] at h
  all_goals
    obtain ⟨hst, hij⟩ := h
    rw [Except.ok.injEq, Prod.mk.injEq] at hij
    obtain ⟨hi, hj⟩ := hij
    subst hst
    subst hi
    subst hj
    refine ⟨rfl, rfl, rfl, rfl, rfl, ?_,
      Finset.mem_union_right _ (mem_pointsOf.2 ⟨rfl, rfl, by omega⟩)⟩
    show 1 ≤ (num_points_for conc (lodFactorOfDistSq (distSq env.camPos (x, 0, z)))).toNat
    omega

end PointCloud

namespace PointCloud

lemma flatMap_filter {α β : Type} (p : β → Bool) (g : α → List β) :
    ∀ l : List α, (l.flatMap g).filter p = l.flatMap fun a => (g a).filter p := by
  intro l
  induction l with
  | nil => rfl
  | cons a rest ih => simp only [List.flatMap_cons, List.filter_append, ih]

lemma flatMap_nil_of_forall {α β : Type} (g : α → List β) :
    ∀ l : List α, (∀ a ∈ l, g a = []) → l.flatMap g = [] := by
  intro l
  induction l with
  | nil => intro _; rfl
  | cons a rest ih =>
    intro h
    simp only [List.flatMap_cons, h a (List.mem_cons_self _ _), List.nil_append]
    exact ih (fun b hb => h b (List.mem_cons_of_mem _ hb))

lemma cellList_twoCellGrid_filter :
    cellList.filter (fun p => !decide (twoCellGrid p.1 p.2 = 0)) = [(0, 0), (0, 10)] := by
  have hrange : List.range 150 = 0 :: (List.range 149).map Nat.succ := by
    show List.range (149 + 1) = _
    rw [List.range_succ_eq_map]
  rw [cellList, flatMap_filter]
  nth_rewrite 1 [hrange]
  rw [List.flatMap_cons]
  have h0 : ((List.range 150).map fun z => ((0 : ℕ), z)).filter
      (fun p => !decide (twoCellGrid p.1 p.2 = 0)) = [(0, 0), (0, 10)] := by
    with_unfolding_all decide
  have hrest : ((List.range 149).map Nat.succ).flatMap
      (fun x => ((List.range 150).map fun z => (x, z)).filter
        (fun p => !decide (twoCellGrid p.1 p.2 = 0))) = [] := by
    apply flatMap_nil_of_forall
    intro a ha
    rcases List.mem_map.1 ha with ⟨m, _, rfl⟩
    rw [List.filter_eq_nil_iff]
    intro b hb
    rcases List.mem_map.1 hb with ⟨w, _, rfl⟩
    simp [twoCellGrid]
  rw [h0, hrest, List.append_nil]

lemma renderLoop_twoCell :
    renderLoop envOk twoCellGrid [(0, 0), (0, 10)] startupState =
      (afterTwoCellPass, Except.ok ()) := by
  with_unfolding_all decide

/-- C1, counterexample: a completed pass over `twoCellGrid` (nonzero cells
`(0, 0)` and `(0, 10)`, one point each) finishes with `Except.ok` — yet the
prim of nonzero cell `(0, 0)` (cell index `(0, 0)`, point index 0) is *not*
live afterwards: the call that rendered cell `(0, 10)` removed it, because
`add_point_cloud_in_grid` removes the previously tracked cell before every
cell, not all previous points once per load.  So the live-prim set does not
correspond to the set of nonzero cells of the loaded grid. -/
theorem claim1_counterexample :
    twoCellGrid 0 0 ≠ 0 ∧
    (load_netcdf_body envOk (some twoCellGrid) startupState).2 = Except.ok () ∧
    ((0 : ℤ), (0 : ℤ), (0 : ℕ)) ∉
      (load_netcdf_point_cloud envOk (some twoCellGrid) startupState).scene := by
  have hloop : renderLoop envOk twoCellGrid cellList startupState =
      (afterTwoCellPass, Except.ok ()) := by
    rw [renderLoop_filter envOk twoCellGrid cellList startupState,
      cellList_twoCellGrid_filter]
    exact renderLoop_twoCell
  refine ⟨by with_unfolding_all decide, ?_, ?_⟩
  · show (match renderLoop envOk twoCellGrid cellList startupState with
      | (st', Except.ok _) =>
        ({ st' with current_file_index := (st'.current_file_index + 1) % 12 },
         Except.ok ())
      | (st', Except.error e) => (st', Except.error e)).2 = Except.ok ()
    rw [hloop]
  · show ((0 : ℤ), (0 : ℤ), (0 : ℕ)) ∉
      (match renderLoop envOk twoCellGrid cellList startupState with
      | (st', Except.ok _) =>
        ({ st' with current_file_index := (st'.current_file_index + 1) % 12 },
         Except.ok ())
      | (st', Except.error e) => (st', Except.error e)).1.scene
    rw [hloop]
    with_unfolding_all decide

/-- C1, amended: after any render pass (completed or not) from a reachable
state, at most the prims of the single tracked cell
`(_last_x, _last_z)` — with point indices below `_last_num_points` — are
live; stale points of other cells never survive a pass, but the points of
every nonzero cell except the last one rendered are removed during the same
pass, because `add_point_cloud_in_grid` unconditionally removes the
previously tracked cell before drawing each cell (not once per load). -/
theorem claim1_amended (env : Env) (file : Option (ℕ → ℕ → ℚ)) (st : ExtState)
    (h : Inv st) :
    (load_netcdf_point_cloud env file st).scene ⊆
      pointsOf (load_netcdf_point_cloud env file st).last_x
        (load_netcdf_point_cloud env file st).last_z
        (load_netcdf_point_cloud env file st).last_num_points :=
  (load_inv env file st h).2

/-- Witness for `claim1_amended` at the startup state. -/
theorem claim1_witness :
    (load_netcdf_point_cloud envOk none startupState).scene ⊆
      pointsOf (load_netcdf_point_cloud envOk none startupState).last_x
        (load_netcdf_point_cloud envOk none startupState).last_z
        (load_netcdf_point_cloud envOk none startupState).last_num_points :=
  claim1_amended envOk none startupState ⟨fun _ => rfl, Finset.empty_subset _⟩

/-- Witness for `claim10_add_always_creates`: one completed add at the
origin with zero concentration still creates one point. -/
theorem claim10_witness :
    (0 : ℤ) = cellIndexI 0 ∧ (0 : ℤ) = cellIndexJ 0 ∧
    afterSingleAdd.last_x = 0 ∧ afterSingleAdd.last_z = 0 ∧
    afterSingleAdd.last_num_points =
      (num_points_for 0 (lodFactorOfDistSq (distSq envOk.camPos (0, 0, 0)))).toNat ∧
    1 ≤ afterSingleAdd.last_num_points ∧
    ((0, 0, 0) : PointPath) ∈ afterSingleAdd.scene :=
  have h : add_point_cloud_in_grid envOk startupState 0 0 0 =
      (afterSingleAdd, Except.ok (0, 0)) := by
    with_unfolding_all decide
  claim10_add_always_creates envOk startupState 0 0 0 afterSingleAdd 0 0 h

end PointCloud
